import Mathlib

/-!
Verification development for the MoE memory/FLOPs calculator (`main.py`).

Modelling conventions:
* Python numbers (arbitrary-precision ints and the dyadic float constants
  0.5, 0.75, 1.25 used by the program) are embedded as exact rationals `ℚ`;
  the program's arithmetic on its data is exact at these values.
* A Python dict used as a configuration mapping is a `List (String × ℚ)`
  (keys unique in an actual dict; `lookup` models subscripting).
* A computation that can raise (`cls(**config)` on a key mismatch,
  `PRECISION_BYTES[precision]` on an unknown label) returns `Option`.
* The transient mutation of `self.config.s` in the decode path is embedded
  by explicit state passing: the mutating methods return the result paired
  with the calculator state they leave behind.
-/

/-- Precision label constants (the keys of `PRECISION_BYTES`). -/
def precFloat32 : String := "float32"

def precBfloat16 : String := "bfloat16"

def precFloat16 : String := "float16"

def precInt8 : String := "int8"

def precInt4 : String := "int4"

/-- Precision-to-bytes mapping; `none` models the `KeyError` raised on an
unknown label. -/
def PRECISION_BYTES (p : String) : Option ℚ :=
  if p = precFloat32 then some 4
  else if p = precBfloat16 then some 2
  else if p = precFloat16 then some 2
  else if p = precInt8 then some 1
  else if p = precInt4 then some (1/2)
  else none

/-- Configuration for MoE model parameters (`MoEConfig` dataclass). -/
structure MoEConfig where
  V : ℚ
  h : ℚ
  l : ℚ
  a : ℚ
  N : ℚ
  f_mult : ℚ
  s : ℚ
  top_k : ℚ
deriving DecidableEq, Repr

/-- Dict key constants for the eight dataclass fields. -/
def keyV : String := "V"

def keyh : String := "h"

def keyl : String := "l"

def keya : String := "a"

def keyN : String := "N"

def keyfmult : String := "f_mult"

def keyseq : String := "s"

def keytopk : String := "top_k"

/-- The eight keyword parameters accepted by the `MoEConfig` constructor. -/
def requiredKeys : List String :=
  [keyV, keyh, keyl, keya, keyN, keyfmult, keyseq, keytopk]

/-- `MoEConfig.from_dict`: `cls(**config)` succeeds exactly when the dict's
keys match the dataclass fields (an unexpected keyword or a missing
required argument raises `TypeError`, modelled as `none`). -/
def MoEConfig.from_dict (d : List (String × ℚ)) : Option MoEConfig :=
  if d.all (fun p => requiredKeys.contains p.1) then
    (d.lookup keyV).bind fun v =>
    (d.lookup keyh).bind fun hh =>
    (d.lookup keyl).bind fun ll =>
    (d.lookup keya).bind fun aa =>
    (d.lookup keyN).bind fun nn =>
    (d.lookup keyfmult).bind fun ff =>
    (d.lookup keyseq).bind fun ss =>
    (d.lookup keytopk).bind fun tk =>
    some ⟨v, hh, ll, aa, nn, ff, ss, tk⟩
  else none

/-- `MoEConfig.get_default_config`: the default configuration dictionary. -/
def MoEConfig.get_default_config : List (String × ℚ) :=
  [(keyV, 32000), (keyh, 4096), (keyl, 32), (keya, 32),
   (keyN, 8), (keyfmult, 1.25), (keyseq, 2048), (keytopk, 2)]

/-- `load_config` with `config_path = None`: a non-empty `config_dict` is
used as-is; `None` or an empty (falsy) dict falls through to the default
configuration. The file-path branch performs I/O and is not modelled; the
claims about `load_config` pass no path. -/
def load_config (config_dict : Option (List (String × ℚ))) : Option MoEConfig :=
  let config_data :=
    match config_dict with
    | some d => if d.isEmpty then MoEConfig.get_default_config else d
    | none => MoEConfig.get_default_config
  MoEConfig.from_dict config_data

/-- The `MoEMemoryCalculator` object: configuration, precision label, and
the bytes-per-parameter looked up at construction. -/
structure MoEMemoryCalculator where
  config : MoEConfig
  precision : String
  bytes_per_param : ℚ
deriving DecidableEq, Repr

/-- `MoEMemoryCalculator.__init__`: looks up `PRECISION_BYTES[precision]`
(failure on an unknown label, modelled as `none`). -/
def MoEMemoryCalculator.init (config : MoEConfig) (precision : String) :
    Option MoEMemoryCalculator :=
  (PRECISION_BYTES precision).map fun k =>
    { config := config, precision := precision, bytes_per_param := k }

/-- Embedding Weights (B) = 2 * k * V * h. -/
def MoEMemoryCalculator.calculate_embedding_weights (m : MoEMemoryCalculator) : ℚ :=
  2 * m.bytes_per_param * m.config.V * m.config.h

/-- LN Weights (B) = 4 * k * h. -/
def MoEMemoryCalculator.calculate_ln_weights (m : MoEMemoryCalculator) : ℚ :=
  4 * m.bytes_per_param * m.config.h

/-- Attention Weights (B) = 4 * k * h * (h + 1). -/
def MoEMemoryCalculator.calculate_attention_weights (m : MoEMemoryCalculator) : ℚ :=
  4 * m.bytes_per_param * m.config.h * (m.config.h + 1)

/-- Router Weights (B) = k * N * (h + 1). -/
def MoEMemoryCalculator.calculate_router_weights (m : MoEMemoryCalculator) : ℚ :=
  m.bytes_per_param * m.config.N * (m.config.h + 1)

/-- MoE Layer Weights (B) = k * N * h * (3 * f_mult * h + 2 * f_mult + 1). -/
def MoEMemoryCalculator.calculate_moe_layer_weights (m : MoEMemoryCalculator) : ℚ :=
  m.bytes_per_param * m.config.N * m.config.h *
    (3 * m.config.f_mult * m.config.h + 2 * m.config.f_mult + 1)

/-- Decoder Weights (B) = LN + Attention + Router + MoE Layer. -/
def MoEMemoryCalculator.calculate_decoder_weights (m : MoEMemoryCalculator) : ℚ :=
  m.calculate_ln_weights + m.calculate_attention_weights +
    m.calculate_router_weights + m.calculate_moe_layer_weights

/-- Model Weights (B) = Embedding + l * Decoder. -/
def MoEMemoryCalculator.calculate_model_weights (m : MoEMemoryCalculator) : ℚ :=
  m.calculate_embedding_weights + m.config.l * m.calculate_decoder_weights

/-- KV-Cache (B) = 2 * k * l * s * h. -/
def MoEMemoryCalculator.calculate_kv_cache (m : MoEMemoryCalculator) : ℚ :=
  2 * m.bytes_per_param * m.config.l * m.config.s * m.config.h

/-- Embedding Compute (FLOPs) = 4 * s * V * h. -/
def MoEMemoryCalculator.calculate_embedding_flops (m : MoEMemoryCalculator) : ℚ :=
  4 * m.config.s * m.config.V * m.config.h

/-- LN Compute (FLOPs) = 14 * s * h. -/
def MoEMemoryCalculator.calculate_ln_flops (m : MoEMemoryCalculator) : ℚ :=
  14 * m.config.s * m.config.h

/-- Attention Compute (FLOPs) = s * (8 * h^2 + 4 * s * h + 3 * s * a). -/
def MoEMemoryCalculator.calculate_attention_flops (m : MoEMemoryCalculator) : ℚ :=
  m.config.s * (8 * m.config.h ^ 2 + 4 * m.config.s * m.config.h +
    3 * m.config.s * m.config.a)

/-- RoPE Compute (FLOPs) = 0.75 * h. -/
def MoEMemoryCalculator.calculate_rope_flops (m : MoEMemoryCalculator) : ℚ :=
  0.75 * m.config.h

/-- Router Compute (FLOPs) = s * N * (2 * h + 3). -/
def MoEMemoryCalculator.calculate_router_flops (m : MoEMemoryCalculator) : ℚ :=
  m.config.s * m.config.N * (2 * m.config.h + 3)

/-- MoE Layer Compute (FLOPs) = 2 * top_k * s * f_mult * h * (4 * h + 3). -/
def MoEMemoryCalculator.calculate_moe_layer_flops (m : MoEMemoryCalculator) : ℚ :=
  2 * m.config.top_k * m.config.s * m.config.f_mult * m.config.h *
    (4 * m.config.h + 3)

/-- Decoder Compute (FLOPs) = LN + Attention + RoPE + Router + MoE Layer. -/
def MoEMemoryCalculator.calculate_decoder_flops (m : MoEMemoryCalculator) : ℚ :=
  m.calculate_ln_flops + m.calculate_attention_flops + m.calculate_rope_flops +
    m.calculate_router_flops + m.calculate_moe_layer_flops

/-- Prefill (FLOPs) = Embedding + l * Decoder. -/
def MoEMemoryCalculator.calculate_prefill_flops (m : MoEMemoryCalculator) : ℚ :=
  m.calculate_embedding_flops + m.config.l * m.calculate_decoder_flops

/-- Attention Compute w/ KV-Cache (FLOPs) = 8 * h^2 + 4 * s * h + 3 * s * a,
with s the cached context length. -/
def MoEMemoryCalculator.calculate_attention_flops_decode (m : MoEMemoryCalculator) : ℚ :=
  8 * m.config.h ^ 2 + 4 * m.config.s * m.config.h + 3 * m.config.s * m.config.a

/-- Decoder Compute w/ KV-Cache: the source sets `self.config.s = 1`,
computes ln/rope/router/moe_layer, restores `s`, then computes the
cached-context attention term. The returned second component is the
calculator state left behind by the mutate/restore sequence. -/
def MoEMemoryCalculator.calculate_decoder_flops_decode (m : MoEMemoryCalculator) :
    ℚ × MoEMemoryCalculator :=
  let original_s := m.config.s
  let m1 := { m with config := { m.config with s := 1 } }
  let ln := m1.calculate_ln_flops
  let rope := m1.calculate_rope_flops
  let router := m1.calculate_router_flops
  let moe_layer := m1.calculate_moe_layer_flops
  let m2 := { m1 with config := { m1.config with s := original_s } }
  let attention := m2.calculate_attention_flops_decode
  (ln + attention + rope + router + moe_layer, m2)

/-- Decode (FLOPs) = Embedding at s=1 + l * Decoder w/ KV-Cache; like the
source, the embedding term is computed under the transient `s = 1`
mutation, which is then undone. -/
def MoEMemoryCalculator.calculate_decode_flops (m : MoEMemoryCalculator) :
    ℚ × MoEMemoryCalculator :=
  let original_s := m.config.s
  let m1 := { m with config := { m.config with s := 1 } }
  let embedding := m1.calculate_embedding_flops
  let m2 := { m1 with config := { m1.config with s := original_s } }
  let res := m2.calculate_decoder_flops_decode
  let l := res.2.config.l
  (embedding + l * res.1, res.2)

/-- The dictionary returned by `calculate_total`. -/
structure MetricsResult where
  weights_gb : ℚ
  kv_cache_gb : ℚ
  total_gb : ℚ
  weights_bytes : ℚ
  kv_cache_bytes : ℚ
  total_bytes : ℚ
  prefill_flops : ℚ
  decode_flops : ℚ
  precision : String
deriving DecidableEq, Repr

/-- `calculate_total`: assembles memory and FLOPs metrics; the second
component is the calculator state after the decode computation. -/
def MoEMemoryCalculator.calculate_total (m : MoEMemoryCalculator) :
    MetricsResult × MoEMemoryCalculator :=
  let weights_bytes := m.calculate_model_weights
  let kv_cache_bytes := m.calculate_kv_cache
  let total_bytes := weights_bytes + kv_cache_bytes
  let prefill_flops := m.calculate_prefill_flops
  let dec := m.calculate_decode_flops
  let bytes_to_gb : ℚ := 1024 ^ 3
  ({ weights_gb := weights_bytes / bytes_to_gb
    , kv_cache_gb := kv_cache_bytes / bytes_to_gb
    , total_gb := total_bytes / bytes_to_gb
    , weights_bytes := weights_bytes
    , kv_cache_bytes := kv_cache_bytes
    , total_bytes := total_bytes
    , prefill_flops := prefill_flops
    , decode_flops := dec.1
    , precision := m.precision }, dec.2)

/-- The default configuration as a record. -/
def defaultConfig : MoEConfig :=
  { V := 32000, h := 4096, l := 32, a := 32, N := 8,
    f_mult := 1.25, s := 2048, top_k := 2 }

/-- The calculator for the default configuration at bfloat16 (k = 2). -/
def defaultCalc : MoEMemoryCalculator :=
  { config := defaultConfig, precision := precBfloat16, bytes_per_param := 2 }

/-- A precision label outside the `PRECISION_BYTES` table, used as a
concrete rejected input. -/
def precUnknown : String := "fp8"

/-! ## Helper lemmas -/

/-- Binding an option against a constant-`none` continuation yields `none`. -/
theorem bind_const_none {α β : Type} (x : Option α) :
    x.bind (fun _ => (none : Option β)) = none := by
  cases x <;> rfl

/-- Constructing a calculator at bfloat16 yields bytes-per-parameter 2. -/
theorem init_bfloat16 (c : MoEConfig) :
    MoEMemoryCalculator.init c precBfloat16 =
      some { config := c, precision := precBfloat16, bytes_per_param := 2 } := rfl

/-- Constructing a calculator at float32 yields bytes-per-parameter 4. -/
theorem init_float32 (c : MoEConfig) :
    MoEMemoryCalculator.init c precFloat32 =
      some { config := c, precision := precFloat32, bytes_per_param := 4 } := rfl

/-- Constructing a calculator at float16 yields bytes-per-parameter 2. -/
theorem init_float16 (c : MoEConfig) :
    MoEMemoryCalculator.init c precFloat16 =
      some { config := c, precision := precFloat16, bytes_per_param := 2 } := rfl

/-- Constructing a calculator at int4 yields bytes-per-parameter 1/2. -/
theorem init_int4 (c : MoEConfig) :
    MoEMemoryCalculator.init c precInt4 =
      some { config := c, precision := precInt4, bytes_per_param := 1/2 } := rfl


/-! ## Claim theorems -/

/-- Claim C1: for every configuration (positive V, h, l, a, N, top_k, s and
positive f_mult) and every precision with bytes-per-parameter k, the
calculator's memory outputs satisfy
weights_bytes = 2kVh + l(4kh + 4kh(h+1) + kN(h+1) + kNh(3·f_mult·h + 2·f_mult + 1)),
kv_cache_bytes = 2klsh, and total_bytes = weights_bytes + kv_cache_bytes. -/
theorem moe_memory_formulas (c : MoEConfig) (p : String) (k : ℚ)
    (m : MoEMemoryCalculator)
    (hk : PRECISION_BYTES p = some k)
    (hm : MoEMemoryCalculator.init c p = some m)
    (hV : 0 < c.V) (hh : 0 < c.h) (hl : 0 < c.l) (ha : 0 < c.a)
    (hN : 0 < c.N) (htk : 0 < c.top_k) (hs : 0 < c.s) (hf : 0 < c.f_mult) :
    (m.calculate_total).1.weights_bytes =
        2 * k * c.V * c.h + c.l *
          (4 * k * c.h + 4 * k * c.h * (c.h + 1) + k * c.N * (c.h + 1) +
            k * c.N * c.h * (3 * c.f_mult * c.h + 2 * c.f_mult + 1)) ∧
      (m.calculate_total).1.kv_cache_bytes = 2 * k * c.l * c.s * c.h ∧
      (m.calculate_total).1.total_bytes =
        (m.calculate_total).1.weights_bytes + (m.calculate_total).1.kv_cache_bytes := by
  simp only [MoEMemoryCalculator.init, hk, Option.map_some', Option.some.injEq] at hm
  subst hm
  refine ⟨?_, ?_, ?_⟩ <;>
    simp only [MoEMemoryCalculator.calculate_total,
      MoEMemoryCalculator.calculate_model_weights,
      MoEMemoryCalculator.calculate_embedding_weights,
      MoEMemoryCalculator.calculate_decoder_weights,
      MoEMemoryCalculator.calculate_ln_weights,
      MoEMemoryCalculator.calculate_attention_weights,
      MoEMemoryCalculator.calculate_router_weights,
      MoEMemoryCalculator.calculate_moe_layer_weights,
      MoEMemoryCalculator.calculate_kv_cache]

/-- Witness for C1 at the default configuration, bfloat16 (k = 2). -/
theorem moe_memory_formulas_witness :
    (defaultCalc.calculate_total).1.weights_bytes =
        2 * 2 * defaultConfig.V * defaultConfig.h + defaultConfig.l *
          (4 * 2 * defaultConfig.h + 4 * 2 * defaultConfig.h * (defaultConfig.h + 1) +
            2 * defaultConfig.N * (defaultConfig.h + 1) +
            2 * defaultConfig.N * defaultConfig.h *
              (3 * defaultConfig.f_mult * defaultConfig.h + 2 * defaultConfig.f_mult + 1)) ∧
      (defaultCalc.calculate_total).1.kv_cache_bytes =
        2 * 2 * defaultConfig.l * defaultConfig.s * defaultConfig.h ∧
      (defaultCalc.calculate_total).1.total_bytes =
        (defaultCalc.calculate_total).1.weights_bytes +
          (defaultCalc.calculate_total).1.kv_cache_bytes :=
  moe_memory_formulas defaultConfig precBfloat16 2 defaultCalc rfl rfl
    (by norm_num [defaultConfig]) (by norm_num [defaultConfig])
    (by norm_num [defaultConfig]) (by norm_num [defaultConfig])
    (by norm_num [defaultConfig]) (by norm_num [defaultConfig])
    (by norm_num [defaultConfig]) (by norm_num [defaultConfig])

/-- Claim C2: for every configuration and precision, prefill_flops =
4sVh + l(14sh + s(8h² + 4sh + 3sa) + 0.75h + sN(2h+3) + 2·top_k·s·f_mult·h·(4h+3)). -/
theorem prefill_flops_formula (m : MoEMemoryCalculator) :
    m.calculate_prefill_flops =
      4 * m.config.s * m.config.V * m.config.h + m.config.l *
        (14 * m.config.s * m.config.h +
          m.config.s * (8 * m.config.h ^ 2 + 4 * m.config.s * m.config.h +
            3 * m.config.s * m.config.a) +
          0.75 * m.config.h +
          m.config.s * m.config.N * (2 * m.config.h + 3) +
          2 * m.config.top_k * m.config.s * m.config.f_mult * m.config.h *
            (4 * m.config.h + 3)) := by
  simp only [MoEMemoryCalculator.calculate_prefill_flops,
    MoEMemoryCalculator.calculate_embedding_flops,
    MoEMemoryCalculator.calculate_decoder_flops,
    MoEMemoryCalculator.calculate_ln_flops,
    MoEMemoryCalculator.calculate_attention_flops,
    MoEMemoryCalculator.calculate_rope_flops,
    MoEMemoryCalculator.calculate_router_flops,
    MoEMemoryCalculator.calculate_moe_layer_flops]

/-- Claim C3: for every configuration and precision, decode_flops is the
prefill formula re-evaluated at sequence length 1 for the embedding, ln,
rope, router and moe_layer terms, while the attention term is
8h² + 4sh + 3sa with s the original cached-context length. -/
theorem decode_flops_formula (m : MoEMemoryCalculator) :
    (m.calculate_decode_flops).1 =
      4 * 1 * m.config.V * m.config.h + m.config.l *
        (14 * 1 * m.config.h +
          (8 * m.config.h ^ 2 + 4 * m.config.s * m.config.h +
            3 * m.config.s * m.config.a) +
          0.75 * m.config.h +
          1 * m.config.N * (2 * m.config.h + 3) +
          2 * m.config.top_k * 1 * m.config.f_mult * m.config.h *
            (4 * m.config.h + 3)) := by
  simp only [MoEMemoryCalculator.calculate_decode_flops,
    MoEMemoryCalculator.calculate_decoder_flops_decode,
    MoEMemoryCalculator.calculate_embedding_flops,
    MoEMemoryCalculator.calculate_ln_flops,
    MoEMemoryCalculator.calculate_rope_flops,
    MoEMemoryCalculator.calculate_router_flops,
    MoEMemoryCalculator.calculate_moe_layer_flops,
    MoEMemoryCalculator.calculate_attention_flops_decode]

/-- Claim C4: the decode computations restore the configuration (every
field, in particular s, is unchanged on return), and running
calculate_total twice in succession on the same calculator yields the
same result both times. -/
theorem decode_mutation_invisible (m : MoEMemoryCalculator) :
    (m.calculate_decoder_flops_decode).2 = m ∧
      (m.calculate_decode_flops).2 = m ∧
      (m.calculate_decode_flops).2.config.s = m.config.s ∧
      ((m.calculate_total).2.calculate_total).1 = (m.calculate_total).1 :=
  ⟨rfl, rfl, rfl, rfl⟩

/-- Claim C5 counterexample: at the default configuration and bfloat16 the
code's weights_gb is more than 16 GB away from the claimed 17.75 GB (it is
about 34.50 GB), so weights_gb ≈ 17.75 is false. -/
theorem default_bf16_weights_gb_not_17_75 :
    16 < |(defaultCalc.calculate_total).1.weights_gb - 17.75| := by
  have hw : (defaultCalc.calculate_total).1.weights_gb = 37043044864 / 1073741824 := by
    norm_num [MoEMemoryCalculator.calculate_total,
      MoEMemoryCalculator.calculate_model_weights,
      MoEMemoryCalculator.calculate_embedding_weights,
      MoEMemoryCalculator.calculate_decoder_weights,
      MoEMemoryCalculator.calculate_ln_weights,
      MoEMemoryCalculator.calculate_attention_weights,
      MoEMemoryCalculator.calculate_router_weights,
      MoEMemoryCalculator.calculate_moe_layer_weights,
      defaultCalc, defaultConfig]
  rw [hw, abs_of_pos (by norm_num)]
  norm_num

/-- Claim C5 (amended): for the default configuration at bfloat16, the
calculator is constructed with bytes-per-parameter 2 and its outputs
satisfy weights_bytes = 37043044864 (so weights_gb ≈ 34.50 GB, within
0.005 of 34.50) and kv_cache_gb = 1 GB exactly. -/
theorem default_bf16_metrics :
    MoEMemoryCalculator.init defaultConfig precBfloat16 = some defaultCalc ∧
      (defaultCalc.calculate_total).1.weights_bytes = 37043044864 ∧
      |(defaultCalc.calculate_total).1.weights_gb - 34.5| < 0.005 ∧
      (defaultCalc.calculate_total).1.kv_cache_gb = 1 := by
  have hw : (defaultCalc.calculate_total).1.weights_bytes = 37043044864 := by
    norm_num [MoEMemoryCalculator.calculate_total,
      MoEMemoryCalculator.calculate_model_weights,
      MoEMemoryCalculator.calculate_embedding_weights,
      MoEMemoryCalculator.calculate_decoder_weights,
      MoEMemoryCalculator.calculate_ln_weights,
      MoEMemoryCalculator.calculate_attention_weights,
      MoEMemoryCalculator.calculate_router_weights,
      MoEMemoryCalculator.calculate_moe_layer_weights,
      defaultCalc, defaultConfig]
  refine ⟨rfl, hw, ?_, ?_⟩
  · have hg : (defaultCalc.calculate_total).1.weights_gb =
        (defaultCalc.calculate_total).1.weights_bytes / 1024 ^ 3 := rfl
    rw [hg, hw]
    rw [abs_of_neg (by norm_num)]
    norm_num
  · norm_num [MoEMemoryCalculator.calculate_total,
      MoEMemoryCalculator.calculate_kv_cache, defaultCalc, defaultConfig]

/-- Claim C6: for a fixed configuration, total memory bytes at float32 are
exactly 8 times the total at int4 and exactly 2 times the total at
float16 and at bfloat16. -/
theorem precision_scaling (c : MoEConfig) (m32 m16 mb16 m4 : MoEMemoryCalculator)
    (h32 : MoEMemoryCalculator.init c precFloat32 = some m32)
    (h16 : MoEMemoryCalculator.init c precFloat16 = some m16)
    (hb16 : MoEMemoryCalculator.init c precBfloat16 = some mb16)
    (h4 : MoEMemoryCalculator.init c precInt4 = some m4) :
    (m32.calculate_total).1.total_bytes = 8 * (m4.calculate_total).1.total_bytes ∧
      (m32.calculate_total).1.total_bytes = 2 * (m16.calculate_total).1.total_bytes ∧
      (m32.calculate_total).1.total_bytes = 2 * (mb16.calculate_total).1.total_bytes := by
  rw [init_float32 c, Option.some.injEq] at h32
  rw [init_float16 c, Option.some.injEq] at h16
  rw [init_bfloat16 c, Option.some.injEq] at hb16
  rw [init_int4 c, Option.some.injEq] at h4
  subst h32 h16 hb16 h4
  refine ⟨?_, ?_, ?_⟩ <;>
    simp only [MoEMemoryCalculator.calculate_total,
      MoEMemoryCalculator.calculate_model_weights,
      MoEMemoryCalculator.calculate_embedding_weights,
      MoEMemoryCalculator.calculate_decoder_weights,
      MoEMemoryCalculator.calculate_ln_weights,
      MoEMemoryCalculator.calculate_attention_weights,
      MoEMemoryCalculator.calculate_router_weights,
      MoEMemoryCalculator.calculate_moe_layer_weights,
      MoEMemoryCalculator.calculate_kv_cache] <;>
    ring

/-- Witness for C6 at the default configuration. -/
theorem precision_scaling_witness :
    (({ config := defaultConfig, precision := precFloat32, bytes_per_param := 4 } :
        MoEMemoryCalculator).calculate_total).1.total_bytes =
        8 * (({ config := defaultConfig, precision := precInt4, bytes_per_param := 1/2 } :
          MoEMemoryCalculator).calculate_total).1.total_bytes ∧
      (({ config := defaultConfig, precision := precFloat32, bytes_per_param := 4 } :
        MoEMemoryCalculator).calculate_total).1.total_bytes =
        2 * (({ config := defaultConfig, precision := precFloat16, bytes_per_param := 2 } :
          MoEMemoryCalculator).calculate_total).1.total_bytes ∧
      (({ config := defaultConfig, precision := precFloat32, bytes_per_param := 4 } :
        MoEMemoryCalculator).calculate_total).1.total_bytes =
        2 * (({ config := defaultConfig, precision := precBfloat16, bytes_per_param := 2 } :
          MoEMemoryCalculator).calculate_total).1.total_bytes :=
  precision_scaling defaultConfig _ _ _ _ rfl rfl rfl rfl

/-- Claim C7: for every configuration with s > 1 and all other fields
positive, at any precision, decode_flops is strictly less than
prefill_flops. -/
theorem decode_flops_lt_prefill_flops (m : MoEMemoryCalculator)
    (hV : 0 < m.config.V) (hh : 0 < m.config.h) (hl : 0 < m.config.l)
    (ha : 0 < m.config.a) (hN : 0 < m.config.N) (hf : 0 < m.config.f_mult)
    (htk : 0 < m.config.top_k) (hs : 1 < m.config.s) :
    (m.calculate_decode_flops).1 < m.calculate_prefill_flops := by
  have key : m.calculate_prefill_flops - (m.calculate_decode_flops).1 =
      (m.config.s - 1) * (4 * m.config.V * m.config.h + m.config.l *
        (14 * m.config.h +
          (8 * m.config.h ^ 2 + 4 * m.config.s * m.config.h +
            3 * m.config.s * m.config.a) +
          m.config.N * (2 * m.config.h + 3) +
          2 * m.config.top_k * m.config.f_mult * m.config.h *
            (4 * m.config.h + 3))) := by
    simp only [MoEMemoryCalculator.calculate_prefill_flops,
      MoEMemoryCalculator.calculate_embedding_flops,
      MoEMemoryCalculator.calculate_decoder_flops,
      MoEMemoryCalculator.calculate_ln_flops,
      MoEMemoryCalculator.calculate_attention_flops,
      MoEMemoryCalculator.calculate_rope_flops,
      MoEMemoryCalculator.calculate_router_flops,
      MoEMemoryCalculator.calculate_moe_layer_flops,
      MoEMemoryCalculator.calculate_decode_flops,
      MoEMemoryCalculator.calculate_decoder_flops_decode,
      MoEMemoryCalculator.calculate_attention_flops_decode]
    ring
  have hs0 : (0:ℚ) < m.config.s := lt_trans one_pos hs
  have hb : (0:ℚ) < 4 * m.config.V * m.config.h + m.config.l *
      (14 * m.config.h +
        (8 * m.config.h ^ 2 + 4 * m.config.s * m.config.h +
          3 * m.config.s * m.config.a) +
        m.config.N * (2 * m.config.h + 3) +
        2 * m.config.top_k * m.config.f_mult * m.config.h *
          (4 * m.config.h + 3)) := by positivity
  have hprod := mul_pos (sub_pos.mpr hs) hb
  linarith [key, hprod]

/-- Witness for C7 at the default configuration, bfloat16. -/
theorem decode_flops_lt_prefill_flops_witness :
    (defaultCalc.calculate_decode_flops).1 < defaultCalc.calculate_prefill_flops :=
  decode_flops_lt_prefill_flops defaultCalc
    (by norm_num [defaultCalc, defaultConfig]) (by norm_num [defaultCalc, defaultConfig])
    (by norm_num [defaultCalc, defaultConfig]) (by norm_num [defaultCalc, defaultConfig])
    (by norm_num [defaultCalc, defaultConfig]) (by norm_num [defaultCalc, defaultConfig])
    (by norm_num [defaultCalc, defaultConfig]) (by norm_num [defaultCalc, defaultConfig])

/-- Claim C8: a configuration mapping that lacks a required field or
carries an extra key is rejected by `from_dict` (no partially-populated
config is ever returned: the construction is all-or-nothing). -/
theorem from_dict_rejects_missing_or_extra (d : List (String × ℚ))
    (hbad : (∃ key ∈ requiredKeys, d.lookup key = none) ∨
      ∃ q ∈ d, ¬ requiredKeys.contains q.1) :
    MoEConfig.from_dict d = none := by
  rcases hbad with ⟨key, hkmem, hknone⟩ | ⟨q, hqmem, hqext⟩
  · by_cases hall : d.all (fun p => requiredKeys.contains p.1)
    · rw [MoEConfig.from_dict, if_pos hall]
      simp only [requiredKeys, List.mem_cons, List.not_mem_nil, or_false] at hkmem
      rcases hkmem with rfl | rfl | rfl | rfl | rfl | rfl | rfl | rfl <;>
        simp [hknone, bind_const_none]
    · rw [MoEConfig.from_dict, if_neg hall]
  · have hall : ¬ (d.all (fun p => requiredKeys.contains p.1) = true) := by
      simp only [List.all_eq_true]
      intro hforall
      exact hqext (hforall q hqmem)
    rw [MoEConfig.from_dict, if_neg hall]

/-- Witness for C8: the empty mapping lacks the required field V and is
rejected. -/
theorem from_dict_rejects_missing_or_extra_witness :
    MoEConfig.from_dict [] = none :=
  from_dict_rejects_missing_or_extra []
    (Or.inl ⟨keyV, by simp [requiredKeys], rfl⟩)

/-- Claim C9: constructing the calculator with a precision label outside
the five enumerated values fails (returns `none`, the model of the lookup
error) rather than silently defaulting to some precision. -/
theorem init_rejects_unknown_precision (c : MoEConfig) (p : String)
    (hp : p ∉ [precFloat32, precBfloat16, precFloat16, precInt8, precInt4]) :
    MoEMemoryCalculator.init c p = none := by
  simp only [List.mem_cons, List.not_mem_nil, or_false, not_or] at hp
  obtain ⟨h1, h2, h3, h4, h5⟩ := hp
  simp [MoEMemoryCalculator.init, PRECISION_BYTES, h1, h2, h3, h4, h5]

/-- Witness for C9: the label fp8 is not a known precision and is
rejected. -/
theorem init_rejects_unknown_precision_witness :
    MoEMemoryCalculator.init defaultConfig precUnknown = none :=
  init_rejects_unknown_precision defaultConfig precUnknown (by decide)

/-- Claim C10: `load_config` with no file path and an empty dict raises no
missing-field error: the empty (falsy) mapping is handled like no mapping
at all, so the default configuration
{V:32000, h:4096, l:32, a:32, N:8, f_mult:1.25, s:2048, top_k:2} is
silently returned. -/
theorem load_config_empty_dict_returns_default :
    load_config (some []) = some defaultConfig ∧
      load_config (some []) = load_config none ∧
      defaultConfig =
        { V := 32000, h := 4096, l := 32, a := 32, N := 8,
          f_mult := 1.25, s := 2048, top_k := 2 } :=
  ⟨rfl, rfl, rfl⟩
